import Mathlib

/-!
Shallow embedding of the annuity valuation engine of the `actuary_rent`
repository (file `src/unnamed/part_001`).

Numbers are modelled by exact rationals.  JavaScript's `NaN` — which arises
in the source exactly when a mortality array is indexed with a negative age,
since `rates[negativeIndex]` is `undefined` and `1 - undefined` is `NaN` —
is modelled by `Option ℚ`, with `none` playing the role of `NaN`: it is
absorbing for arithmetic and every comparison with it is false, as in
JavaScript.  `Math.round` (round half towards positive infinity) is
`jsRound`, `Math.ceil` is `jsCeil`.
-/

namespace ActuaryRent

/-- JavaScript `Math.round`: round half towards `+∞`. -/
def jsRound (q : ℚ) : ℤ := (q + 1/2).floor

/-- JavaScript `Math.ceil`. -/
def jsCeil (q : ℚ) : ℤ := q.ceil

/-- Addition on JS numbers (`none` = `NaN`, absorbing). -/
def jadd : Option ℚ → Option ℚ → Option ℚ
  | some a, some b => some (a + b)
  | _, _ => none

/-- Multiplication on JS numbers (`none` = `NaN`, absorbing). -/
def jmul : Option ℚ → Option ℚ → Option ℚ
  | some a, some b => some (a * b)
  | _, _ => none

/-- The comparison `x < c` on JS numbers: false when `x` is `NaN`. -/
def jlt (x : Option ℚ) (c : ℚ) : Bool :=
  match x with
  | some a => decide (a < c)
  | none => false

/-- `Array.from(\x7b length: 100 \x7d, (_, i) => Math.min(a + i * step, cap))`:
the capped linear ramp generating every reference mortality curve. -/
def ramp (a step cap : ℚ) (i : ℕ) : ℚ := min (a + i * step) cap

/-- Every reference mortality array has length 100 (`rates.length`). -/
def ratesLength : ℕ := 100

/-- TGH05 male curve (also the system default curve). -/
def TGH05male : ℕ → ℚ := ramp 0.001 0.002 0.3

/-- TGH05 female curve. -/
def TGH05female : ℕ → ℚ := ramp 0.0008 0.0018 0.25

/-- TGF05 male curve. -/
def TGF05male : ℕ → ℚ := ramp 0.001 0.002 0.3

/-- TGF05 female curve. -/
def TGF05female : ℕ → ℚ := ramp 0.0008 0.0018 0.25

/-- TV88-90 male curve. -/
def TV8890male : ℕ → ℚ := ramp 0.0009 0.0019 0.28

/-- TV88-90 female curve. -/
def TV8890female : ℕ → ℚ := ramp 0.0009 0.0019 0.28

/-- TH00-02 male curve. -/
def TH0002male : ℕ → ℚ := ramp 0.0012 0.0022 0.32

/-- TH00-02 female curve. -/
def TH0002female : ℕ → ℚ := ramp 0.001 0.002 0.27

/-- TF00-02 male curve. -/
def TF0002male : ℕ → ℚ := ramp 0.0012 0.0022 0.32

/-- TF00-02 female curve. -/
def TF0002female : ℕ → ℚ := ramp 0.001 0.002 0.27

/-- The lookup `mortalityRates[table]?.[gender]` on the table record. -/
def mortalityRates (table gender : String) : Option (ℕ → ℚ) :=
  if table = "TGH05" then
    if gender = "male" then some TGH05male
    else if gender = "female" then some TGH05female
    else none
  else if table = "TGF05" then
    if gender = "male" then some TGF05male
    else if gender = "female" then some TGF05female
    else none
  else if table = "TV88-90" then
    if gender = "male" then some TV8890male
    else if gender = "female" then some TV8890female
    else none
  else if table = "TH00-02" then
    if gender = "male" then some TH0002male
    else if gender = "female" then some TH0002female
    else none
  else if table = "TF00-02" then
    if gender = "male" then some TF0002male
    else if gender = "female" then some TF0002female
    else none
  else none

/-- `mortalityRates[table]?.[gender] || mortalityRates.TGH05.male`. -/
def resolveRates (table gender : String) : ℕ → ℚ :=
  (mortalityRates table gender).getD TGH05male

/-- The factor `1 - rates[currentAge]` of the survival loops: `NaN` (`none`)
when the index is negative, as in JavaScript. -/
def rateFactor (rates : ℕ → ℚ) (currentAge : ℤ) : Option ℚ :=
  if 0 ≤ currentAge then some (1 - rates currentAge.toNat) else none

/-- Loop body of `calculateSurvivalProbability`: iterate
`probability *= (1 - rates[age + i])` for `i = 0, 1, ...`, breaking once
`age + i >= rates.length`.  `fuel` is the number of remaining iterations. -/
def survGo (rates : ℕ → ℚ) (age : ℤ) : ℕ → ℕ → Option ℚ → Option ℚ
  | _, 0, probability => probability
  | i, fuel + 1, probability =>
    if (ratesLength : ℤ) ≤ age + i then probability
    else survGo rates age (i + 1) fuel (jmul probability (rateFactor rates (age + i)))

/-- `calculateSurvivalProbability(age, gender, table, years)`. -/
def calculateSurvivalProbability (age : ℤ) (gender table : String) (years : ℕ) : Option ℚ :=
  survGo (resolveRates table gender) age 0 years (some 1)

/-- Loop body of `calculateLifeExpectancy`: at most 50 iterations, breaking
on `currentAge >= rates.length`, accumulating `expectancy += probability`
and breaking after the accumulation once `probability < 0.01`. -/
def leGo (rates : ℕ → ℚ) (age : ℤ) : ℕ → ℕ → Option ℚ → Option ℚ → Option ℚ
  | _, 0, _, expectancy => expectancy
  | i, fuel + 1, probability, expectancy =>
    if (ratesLength : ℤ) ≤ age + i then expectancy
    else
      let probability2 := jmul probability (rateFactor rates (age + i))
      let expectancy2 := jadd expectancy probability2
      if jlt probability2 (1/100) then expectancy2
      else leGo rates age (i + 1) fuel probability2 expectancy2

/-- `calculateLifeExpectancy(age, gender, table)`:
`Math.round(expectancy * 10) / 10` of the accumulated loop value. -/
def calculateLifeExpectancy (age : ℤ) (gender table : String) : Option ℚ :=
  (leGo (resolveRates table gender) age 0 50 (some 1) (some 0)).map
    (fun e => ((jsRound (e * 10) : ℚ)) / 10)

/-- `Math.pow(1 + discountRate, -t)` in exact arithmetic. -/
def discountFactor (discountRate : ℚ) (t : ℕ) : ℚ := ((1 + discountRate) ^ t)⁻¹

/-- Loop body of `calculateSimpleAnnuity` (also reused verbatim by the
source's `calculateDeferredAnnuity`, whose body is identical): iterate over
payment years `t`, adding `annualAmount * survival(t) * (1+r)^(-t)` and
breaking after the addition once `survival(t) < 0.01`. -/
def simpleGo (age : ℤ) (gender table : String) (annualAmount discountRate : ℚ) :
    ℕ → ℕ → Option ℚ → Option ℚ
  | _, 0, pv => pv
  | t, fuel + 1, pv =>
    let survivalProb := calculateSurvivalProbability age gender table t
    let pv2 := jadd pv (jmul (jmul (some annualAmount) survivalProb)
      (some (discountFactor discountRate t)))
    if jlt survivalProb (1/100) then pv2
    else simpleGo age gender table annualAmount discountRate (t + 1) fuel pv2

/-- `calculateSimpleAnnuity`: years `t = 1..50` with the early exit. -/
def calculateSimpleAnnuity (age : ℤ) (gender table : String)
    (annualAmount discountRate : ℚ) : Option ℚ :=
  simpleGo age gender table annualAmount discountRate 1 50 (some 0)

/-- `calculateReversibleAnnuity`. -/
def calculateReversibleAnnuity (age : ℤ) (gender : String) (spouseAge : ℤ)
    (table : String) (annualAmount discountRate reversalRate : ℚ) : Option ℚ :=
  let primaryAnnuity := calculateSimpleAnnuity age gender table annualAmount discountRate
  let spouseGender := if gender = "male" then "female" else "male"
  let reversalAmount := annualAmount * (reversalRate / 100)
  let spouseAnnuity := calculateSimpleAnnuity spouseAge spouseGender table reversalAmount discountRate
  jadd primaryAnnuity (jmul spouseAnnuity (some 0.6))

/-- Loop body of `calculateTemporaryAnnuity`: fixed horizon, no early exit. -/
def temporaryGo (age : ℤ) (gender table : String) (annualAmount discountRate : ℚ) :
    ℕ → ℕ → Option ℚ → Option ℚ
  | _, 0, pv => pv
  | t, fuel + 1, pv =>
    let survivalProb := calculateSurvivalProbability age gender table t
    let pv2 := jadd pv (jmul (jmul (some annualAmount) survivalProb)
      (some (discountFactor discountRate t)))
    temporaryGo age gender table annualAmount discountRate (t + 1) fuel pv2

/-- `calculateTemporaryAnnuity`: years `t = 1..duration`. -/
def calculateTemporaryAnnuity (age : ℤ) (gender table : String)
    (annualAmount discountRate : ℚ) (duration : ℕ) : Option ℚ :=
  temporaryGo age gender table annualAmount discountRate 1 duration (some 0)

/-- `calculateDeferredAnnuity`: years `t = deferralPeriod+1..50` with the
early exit; its loop body is identical to the simple annuity's. -/
def calculateDeferredAnnuity (age : ℤ) (gender table : String)
    (annualAmount discountRate : ℚ) (deferralPeriod : ℕ) : Option ℚ :=
  simpleGo age gender table annualAmount discountRate (deferralPeriod + 1)
    (50 - deferralPeriod) (some 0)

/-- Loop body of `calculateGrowingAnnuity`: growing payment, discounting at
the real (growth-adjusted) rate, same early exit as the simple annuity. -/
def growingGo (age : ℤ) (gender table : String) (annualAmount growthRate realDiscountRate : ℚ) :
    ℕ → ℕ → Option ℚ → Option ℚ
  | _, 0, pv => pv
  | t, fuel + 1, pv =>
    let survivalProb := calculateSurvivalProbability age gender table t
    let payment := annualAmount * (1 + growthRate / 100) ^ (t - 1)
    let pv2 := jadd pv (jmul (jmul (some payment) survivalProb)
      (some (discountFactor realDiscountRate t)))
    if jlt survivalProb (1/100) then pv2
    else growingGo age gender table annualAmount growthRate realDiscountRate (t + 1) fuel pv2

/-- `calculateGrowingAnnuity`. -/
def calculateGrowingAnnuity (age : ℤ) (gender table : String)
    (annualAmount discountRate growthRate : ℚ) : Option ℚ :=
  let realDiscountRate := (discountRate - growthRate / 100) / (1 + growthRate / 100)
  growingGo age gender table annualAmount growthRate realDiscountRate 1 50 (some 0)

/-- The input record `CalculationParams`; optional fields are `Option`s,
their defaults are applied inside `calculateAnnuity` like the source's
destructuring defaults. -/
structure CalculationParams where
  annuityType : String
  age : ℤ
  gender : String
  interestRate : ℚ
  annualAmount : ℚ
  mortalityTable : String
  duration : Option ℕ := none
  deferralPeriod : Option ℕ := none
  growthRate : Option ℚ := none
  reversalRate : Option ℚ := none
  spouseAge : Option ℤ := none
deriving DecidableEq

/-- One projection entry. -/
structure ProjectionPoint where
  year : ℕ
  payment : ℤ
  cumulativePayment : Option ℤ
  probability : Option ℚ
deriving DecidableEq

/-- The output record `CalculationResult`. -/
structure CalculationResult where
  presentValue : Option ℤ
  monthlyPayment : ℤ
  totalPayments : Option ℤ
  lifeExpectancy : Option ℚ
  projections : List ProjectionPoint
deriving DecidableEq

/-- The per-year payment of the projection loop: `annualAmount`, overridden
in sequence by the growing formula, the temporary cut-off and the deferral
cut-off, exactly as the source's chain of `if` statements. -/
def paymentFor (annuityType : String) (annualAmount growthRate : ℚ)
    (duration deferralPeriod : ℕ) (year : ℕ) : ℚ :=
  let payment := annualAmount
  let payment := if annuityType = "growing" then
    annualAmount * (1 + growthRate / 100) ^ (year - 1) else payment
  let payment := if annuityType = "temporary" ∧ duration < year then 0 else payment
  if annuityType = "deferred" ∧ year ≤ deferralPeriod then 0 else payment

/-- The projection loop: for each year, compute the survival probability and
the payment, accumulate `totalPayments += payment * survivalProb` and emit a
rounded projection point.  Returns the point list and the final (unrounded)
running total. -/
def projGo (age : ℤ) (gender table annuityType : String) (annualAmount growthRate : ℚ)
    (duration deferralPeriod : ℕ) :
    ℕ → ℕ → Option ℚ → List ProjectionPoint × Option ℚ
  | _, 0, totalPayments => ([], totalPayments)
  | year, fuel + 1, totalPayments =>
    let survivalProb := calculateSurvivalProbability age gender table year
    let payment := paymentFor annuityType annualAmount growthRate duration deferralPeriod year
    let totalPayments2 := jadd totalPayments (jmul (some payment) survivalProb)
    let point : ProjectionPoint :=
      { year := year
        payment := jsRound payment
        cumulativePayment := totalPayments2.map jsRound
        probability := survivalProb.map (fun s => ((jsRound (s * 100) : ℚ)) / 100) }
    let rest := projGo age gender table annuityType annualAmount growthRate
      duration deferralPeriod (year + 1) fuel totalPayments2
    (point :: rest.1, rest.2)

/-- Number of projection years, `year = 1 .. Math.min(30, Math.ceil(lifeExpectancy))`:
zero when the life expectancy is `NaN` (`year <= NaN` is false in JS). -/
def numProjYears : Option ℚ → ℕ
  | none => 0
  | some q => (min 30 (jsCeil q)).toNat

/-- The `switch (annuityType)` dispatch of `calculateAnnuity`, producing the
unrounded present value; the default case falls back to the simple strategy. -/
def presentValueByType (annuityType : String) (age : ℤ) (gender : String)
    (mortalityTable : String) (annualAmount discountRate : ℚ)
    (duration deferralPeriod : ℕ) (growthRate reversalRate : ℚ) (spouseAge : ℤ) : Option ℚ :=
  if annuityType = "simple" then
    calculateSimpleAnnuity age gender mortalityTable annualAmount discountRate
  else if annuityType = "reversible" then
    calculateReversibleAnnuity age gender spouseAge mortalityTable annualAmount
      discountRate reversalRate
  else if annuityType = "temporary" then
    calculateTemporaryAnnuity age gender mortalityTable annualAmount discountRate duration
  else if annuityType = "deferred" then
    calculateDeferredAnnuity age gender mortalityTable annualAmount discountRate deferralPeriod
  else if annuityType = "growing" then
    calculateGrowingAnnuity age gender mortalityTable annualAmount discountRate growthRate
  else
    calculateSimpleAnnuity age gender mortalityTable annualAmount discountRate

/-- `calculateAnnuity(params)`, the engine's `evaluate`. -/
def calculateAnnuity (params : CalculationParams) : CalculationResult :=
  let duration := params.duration.getD 30
  let deferralPeriod := params.deferralPeriod.getD 0
  let growthRate := params.growthRate.getD 0
  let reversalRate := params.reversalRate.getD 60
  let spouseAge := params.spouseAge.getD (params.age - 3)
  let discountRate := params.interestRate / 100
  let lifeExpectancy := calculateLifeExpectancy params.age params.gender params.mortalityTable
  let presentValue := presentValueByType params.annuityType params.age params.gender
    params.mortalityTable params.annualAmount discountRate duration deferralPeriod
    growthRate reversalRate spouseAge
  let proj := projGo params.age params.gender params.mortalityTable params.annuityType
    params.annualAmount growthRate duration deferralPeriod 1
    (numProjYears lifeExpectancy) (some 0)
  { presentValue := presentValue.map jsRound
    monthlyPayment := jsRound (params.annualAmount / 12)
    totalPayments := proj.2.map jsRound
    lifeExpectancy := lifeExpectancy
    projections := proj.1 }

/-!  Pure (`ℚ`-valued) companions of the loops, used to reason about runs
on nonnegative ages, where no `NaN` can arise.  -/

/-- Pure product form of the survival loop for a nonnegative age:
`survProd rates age i fuel` is the product of `1 - rates (age + j)` over the
first `fuel` indices `j ≥ i`, stopping at the end of the table. -/
def survProd (rates : ℕ → ℚ) (age : ℕ) : ℕ → ℕ → ℚ
  | _, 0 => 1
  | i, fuel + 1 =>
    if ratesLength ≤ age + i then 1
    else (1 - rates (age + i)) * survProd rates age (i + 1) fuel

/-- Sum form of the life-expectancy loop for a nonnegative age: the series
of running survival probabilities, stopped at the table's end, at the 50-year
horizon, and (after accumulating) once the running probability is below 0.01. -/
def specLifeExpectancySum (rates : ℕ → ℚ) (age : ℕ) : ℕ → ℕ → ℚ → ℚ
  | _, 0, _ => 0
  | i, fuel + 1, p =>
    if ratesLength ≤ age + i then 0
    else
      let p2 := p * (1 - rates (age + i))
      if p2 < 1/100 then p2 else p2 + specLifeExpectancySum rates age (i + 1) fuel p2

/-- Life-expectancy accumulation as claimed by the specification sentence
"stops early exactly when the running probability drops below 0.01
(truncation, not table exhaustion)": the only early exit is the truncation
rule; past the table's last defined age the running probability is simply no
longer decreased (the Mortality Model's documented no-further-mortality
behaviour). -/
def truncOnlyLifeExpectancySum (rates : ℕ → ℚ) (age : ℕ) : ℕ → ℕ → ℚ → ℚ
  | _, 0, _ => 0
  | i, fuel + 1, p =>
    let p2 := if age + i < ratesLength then p * (1 - rates (age + i)) else p
    if p2 < 1/100 then p2 else p2 + truncOnlyLifeExpectancySum rates age (i + 1) fuel p2

/-- The claimed life-expectancy value (truncation-only early exit, one
decimal place). -/
def truncOnlyLifeExpectancy (age : ℕ) (gender table : String) : ℚ :=
  ((jsRound (truncOnlyLifeExpectancySum (resolveRates table gender) age 0 50 1 * 10) : ℚ)) / 10

/-- The spouse's sex in the reversible-annuity formula, per the
specification: the opposite of the primary's sex. -/
def oppositeSex (gender : String) : String :=
  if gender = "male" then "female" else "male"

/-!  Concrete parameter records used by the witnesses.  -/

/-- A simple annuity for a 90-year-old male (short projection horizon). -/
def simpleParams : CalculationParams :=
  { annuityType := "simple", age := 90, gender := "male", interestRate := 2.5,
    annualAmount := 12000, mortalityTable := "TGH05" }

/-- A growing annuity, 10 % yearly growth. -/
def growingParams : CalculationParams :=
  { annuityType := "growing", age := 90, gender := "male", interestRate := 2.5,
    annualAmount := 1200, mortalityTable := "TGH05", growthRate := some 10 }

/-- A reversible annuity with an explicit spouse age. -/
def reversibleParams : CalculationParams :=
  { annuityType := "reversible", age := 90, gender := "male", interestRate := 2.5,
    annualAmount := 12000, mortalityTable := "TGH05", reversalRate := some 60,
    spouseAge := some 92 }

/-- A temporary annuity with an unknown mortality-table id. -/
def unknownTableParams : CalculationParams :=
  { annuityType := "temporary", age := 90, gender := "male", interestRate := 2.5,
    annualAmount := 12000, mortalityTable := "UNKNOWN-TABLE", duration := some 2 }

/-- The first projection point of `calculateAnnuity growingParams`. -/
def growingPt0 : ProjectionPoint :=
  { year := 1, payment := 1200, cumulativePayment := some 983, probability := some (41/50) }

/-- A simple annuity for a 99-year-old male (single projection point). -/
def simple99Params : CalculationParams :=
  { annuityType := "simple", age := 99, gender := "male", interestRate := 2.5,
    annualAmount := 12000, mortalityTable := "TGH05" }

/-- The unique projection point of `calculateAnnuity simple99Params`. -/
def lastPt99 : ProjectionPoint :=
  { year := 1, payment := 12000, cumulativePayment := some 9612, probability := some (4/5) }

/-!  Basic lemmas about the JS-number helpers.  -/

theorem jadd_some (a b : ℚ) : jadd (some a) (some b) = some (a + b) := rfl

theorem jmul_some (a b : ℚ) : jmul (some a) (some b) = some (a * b) := rfl

theorem jmul_comm (x y : Option ℚ) : jmul x y = jmul y x := by
  cases x <;> cases y <;> simp [jmul, mul_comm]

theorem jsRound_mono {a b : ℚ} (h : a ≤ b) : jsRound a ≤ jsRound b := by
  unfold jsRound
  calc (a + 1/2).floor = ⌊a + 1/2⌋ := rfl
    _ ≤ ⌊b + 1/2⌋ := Int.floor_mono (by linarith)
    _ = (b + 1/2).floor := rfl

theorem jsRound_nonneg {a : ℚ} (h : 0 ≤ a) : 0 ≤ jsRound a := by
  unfold jsRound
  calc (0:ℤ) = ⌊(0:ℚ)⌋ := by simp
    _ ≤ ⌊a + 1/2⌋ := Int.floor_mono (by linarith)
    _ = (a + 1/2).floor := rfl

theorem jsRound_eq (n : ℤ) {q : ℚ} (h1 : (n:ℚ) ≤ q + 1/2) (h2 : q + 1/2 < n + 1) :
    jsRound q = n := by
  unfold jsRound
  show ⌊q + 1/2⌋ = n
  exact Int.floor_eq_iff.2 ⟨h1, h2⟩

theorem jsCeil_nonneg {q : ℚ} (h : 0 ≤ q) : 0 ≤ jsCeil q := by
  unfold jsCeil Rat.ceil
  split_ifs
  · exact Rat.num_nonneg.2 h
  · have h2 : (0:ℤ) ≤ q.num / q.den := Int.ediv_nonneg (Rat.num_nonneg.2 h) (by positivity)
    omega

/-!  Bounds on the mortality curves.  -/

theorem ramp_bounds (a step cap : ℚ) (ha : 0 ≤ a) (hstep : 0 ≤ step) (hcap : 0 ≤ cap)
    (hcap1 : cap ≤ 1) (i : ℕ) : 0 ≤ ramp a step cap i ∧ ramp a step cap i ≤ 1 :=
  ⟨le_min (by positivity) hcap, (min_le_right _ _).trans hcap1⟩

theorem resolveRates_bounds (table gender : String) (i : ℕ) :
    0 ≤ resolveRates table gender i ∧ resolveRates table gender i ≤ 1 := by
  unfold resolveRates mortalityRates
  split_ifs <;>
    simp only [Option.getD_some, Option.getD_none, TGH05male, TGH05female, TGF05male,
      TGF05female, TV8890male, TV8890female, TH0002male, TH0002female, TF0002male,
      TF0002female] <;>
    apply ramp_bounds <;> norm_num

/-!  The survival loop on a nonnegative age computes the pure product.  -/

theorem survGo_eq_survProd (rates : ℕ → ℚ) (a : ℕ) :
    ∀ (fuel i : ℕ) (p : ℚ),
      survGo rates (a : ℤ) i fuel (some p) = some (p * survProd rates a i fuel) := by
  intro fuel
  induction fuel with
  | zero => intro i p; simp [survGo, survProd]
  | succ n ih =>
    intro i p
    simp only [survGo, survProd]
    by_cases h : ratesLength ≤ a + i
    · rw [if_pos (by exact_mod_cast h), if_pos h, mul_one]
    · rw [if_neg (by exact_mod_cast h), if_neg h]
      have h0 : (0:ℤ) ≤ (a:ℤ) + (i:ℤ) := by positivity
      have hidx : ((a:ℤ) + (i:ℤ)).toNat = a + i := by omega
      rw [rateFactor, if_pos h0, hidx, jmul_some, ih (i+1) (p * (1 - rates (a+i))), mul_assoc]

theorem survProd_bounds (rates : ℕ → ℚ) (hr : ∀ j, 0 ≤ rates j ∧ rates j ≤ 1) (a : ℕ) :
    ∀ (fuel i : ℕ), 0 ≤ survProd rates a i fuel ∧ survProd rates a i fuel ≤ 1 := by
  intro fuel
  induction fuel with
  | zero => intro i; simp [survProd]
  | succ n ih =>
    intro i
    simp only [survProd]
    split_ifs with h
    · norm_num
    · obtain ⟨h0, h1⟩ := ih (i+1)
      obtain ⟨hr0, hr1⟩ := hr (a+i)
      constructor
      · exact mul_nonneg (by linarith) h0
      · nlinarith

theorem survProd_succ (rates : ℕ → ℚ) (a i m : ℕ) :
    survProd rates a i (m + 1)
      = if ratesLength ≤ a + i then 1
        else (1 - rates (a + i)) * survProd rates a (i + 1) m := rfl

theorem survProd_succ_le (rates : ℕ → ℚ) (hr : ∀ j, 0 ≤ rates j ∧ rates j ≤ 1) (a : ℕ) :
    ∀ (fuel i : ℕ), survProd rates a i (fuel + 1) ≤ survProd rates a i fuel := by
  intro fuel
  induction fuel with
  | zero =>
    intro i
    rw [survProd_succ rates a i 0]
    simp only [survProd]
    split_ifs with h
    · exact le_refl 1
    · obtain ⟨hr0, hr1⟩ := hr (a+i)
      nlinarith
  | succ n ih =>
    intro i
    rw [survProd_succ rates a i (n+1), survProd_succ rates a i n]
    split_ifs with h
    · exact le_refl 1
    · obtain ⟨hr0, hr1⟩ := hr (a+i)
      exact mul_le_mul_of_nonneg_left (ih (i+1)) (by linarith)

/-- C7: for a fixed age (in the curve's domain), sex and table,
`survivalProbability` is monotonically non-increasing in `years`. -/
theorem claim_C7_survival_nonincreasing (age : ℕ) (gender table : String) (n : ℕ) :
    ∃ a b, calculateSurvivalProbability (age : ℤ) gender table (n + 1) = some a ∧
      calculateSurvivalProbability (age : ℤ) gender table n = some b ∧ a ≤ b := by
  have hr := resolveRates_bounds table gender
  refine ⟨survProd (resolveRates table gender) age 0 (n+1),
    survProd (resolveRates table gender) age 0 n, ?_, ?_, ?_⟩
  · unfold calculateSurvivalProbability
    rw [survGo_eq_survProd, one_mul]
  · unfold calculateSurvivalProbability
    rw [survGo_eq_survProd, one_mul]
  · exact survProd_succ_le (resolveRates table gender) hr age n 0

/-- C8: at or beyond the table's range (`age ≥ 100`) the survival
probability is exactly 1 for every number of years. -/
theorem claim_C8_beyond_table_survival_one (age : ℤ) (h : (100:ℤ) ≤ age)
    (gender table : String) (years : ℕ) :
    calculateSurvivalProbability age gender table years = some 1 := by
  unfold calculateSurvivalProbability
  cases years with
  | zero => rfl
  | succ n =>
    simp only [survGo]
    rw [if_pos]
    simp only [ratesLength, Nat.cast_ofNat, Nat.cast_zero]
    omega

/-- Witness for C8 at age 150. -/
theorem claim_C8_witness :
    ((100:ℤ) ≤ 150) ∧ calculateSurvivalProbability 150 "male" "TGH05" 7 = some 1 :=
  ⟨by decide, claim_C8_beyond_table_survival_one 150 (by decide) "male" "TGH05" 7⟩

/-- C6: an unknown `(tableId, sex)` pair silently resolves to the default
TGH05 male curve, so survival probabilities and life expectancies computed
with it coincide with the default-curve ones. -/
theorem claim_C6_unknown_table_fallback (table gender : String)
    (h : mortalityRates table gender = none) :
    (∀ (age : ℤ) (years : ℕ),
        calculateSurvivalProbability age gender table years
          = calculateSurvivalProbability age "male" "TGH05" years) ∧
    (∀ age : ℤ, calculateLifeExpectancy age gender table
        = calculateLifeExpectancy age "male" "TGH05") := by
  have key : resolveRates table gender = resolveRates "TGH05" "male" := by
    rw [resolveRates, resolveRates, h]
    simp [mortalityRates]
  constructor
  · intro age years
    unfold calculateSurvivalProbability
    rw [key]
  · intro age
    unfold calculateLifeExpectancy
    rw [key]

/-- Witness for C6 at the unknown table id "UNKNOWN-TABLE". -/
theorem claim_C6_witness :
    mortalityRates "UNKNOWN-TABLE" "male" = none ∧
    calculateSurvivalProbability 90 "male" "UNKNOWN-TABLE" 3
      = calculateSurvivalProbability 90 "male" "TGH05" 3 := by
  have h : mortalityRates "UNKNOWN-TABLE" "male" = none := by simp [mortalityRates]
  exact ⟨h, (claim_C6_unknown_table_fallback "UNKNOWN-TABLE" "male" h).1 90 3⟩

/-!  Projection-sequence machinery.  -/

theorem projGo_succ (age : ℤ) (gender table ty : String) (amt g : ℚ) (dur defp : ℕ)
    (year fuel : ℕ) (tp : Option ℚ) :
    projGo age gender table ty amt g dur defp year (fuel + 1) tp
      = ((⟨year, jsRound (paymentFor ty amt g dur defp year),
            (jadd tp (jmul (some (paymentFor ty amt g dur defp year))
              (calculateSurvivalProbability age gender table year))).map jsRound,
            (calculateSurvivalProbability age gender table year).map
              (fun s => ((jsRound (s * 100) : ℚ)) / 100)⟩ : ProjectionPoint)
          :: (projGo age gender table ty amt g dur defp (year + 1) fuel
              (jadd tp (jmul (some (paymentFor ty amt g dur defp year))
                (calculateSurvivalProbability age gender table year)))).1,
         (projGo age gender table ty amt g dur defp (year + 1) fuel
            (jadd tp (jmul (some (paymentFor ty amt g dur defp year))
              (calculateSurvivalProbability age gender table year)))).2) := rfl

theorem projGo_length (age : ℤ) (gender table ty : String) (amt g : ℚ) (dur defp : ℕ) :
    ∀ (fuel year : ℕ) (tp : Option ℚ),
      ((projGo age gender table ty amt g dur defp year fuel tp).1).length = fuel := by
  intro fuel
  induction fuel with
  | zero => intro year tp; rfl
  | succ n ih =>
    intro year tp
    rw [projGo_succ]
    simp only [List.length_cons, ih]

theorem calculateAnnuity_projections (p : CalculationParams) :
    (calculateAnnuity p).projections
      = (projGo p.age p.gender p.mortalityTable p.annuityType p.annualAmount
          (p.growthRate.getD 0) (p.duration.getD 30) (p.deferralPeriod.getD 0) 1
          (numProjYears (calculateLifeExpectancy p.age p.gender p.mortalityTable))
          (some 0)).1 := rfl

theorem calculateAnnuity_lifeExpectancy (p : CalculationParams) :
    (calculateAnnuity p).lifeExpectancy
      = calculateLifeExpectancy p.age p.gender p.mortalityTable := rfl

theorem calculateAnnuity_length (p : CalculationParams) :
    (calculateAnnuity p).projections.length
      = numProjYears (calculateLifeExpectancy p.age p.gender p.mortalityTable) := by
  rw [calculateAnnuity_projections, projGo_length]

theorem numProjYears_le_30 (x : Option ℚ) : numProjYears x ≤ 30 := by
  cases x with
  | none => simp [numProjYears]
  | some q =>
    simp only [numProjYears]
    have h := min_le_left (30 : ℤ) (jsCeil q)
    omega

/-- C5: the engine is a total function: on every parameter record — any
ages (negative included), rates, strings — it returns a fully populated
result whose monthly payment is `round(annualAmount/12)` and whose
projection list has the (at most 30) dictated length; no error path exists,
out-of-range table reads merely propagate as `NaN` values. -/
theorem claim_C5_total_function (p : CalculationParams) :
    (calculateAnnuity p).monthlyPayment = jsRound (p.annualAmount / 12) ∧
    (calculateAnnuity p).projections.length
      = numProjYears ((calculateAnnuity p).lifeExpectancy) ∧
    (calculateAnnuity p).projections.length ≤ 30 := by
  refine ⟨rfl, ?_, ?_⟩
  · rw [calculateAnnuity_length, calculateAnnuity_lifeExpectancy]
  · rw [calculateAnnuity_length]
    exact numProjYears_le_30 _

/-- C10: the monthly payment depends only on the annual amount and equals
`round(annualAmount/12)`. -/
theorem claim_C10_monthly_payment (p q : CalculationParams)
    (h : p.annualAmount = q.annualAmount) :
    (calculateAnnuity p).monthlyPayment = jsRound (p.annualAmount / 12) ∧
    (calculateAnnuity p).monthlyPayment = (calculateAnnuity q).monthlyPayment := by
  refine ⟨rfl, ?_⟩
  show jsRound (p.annualAmount / 12) = jsRound (q.annualAmount / 12)
  rw [h]

/-- Witness for C10: two records differing in everything but the amount. -/
theorem claim_C10_witness :
    simpleParams.annualAmount = reversibleParams.annualAmount ∧
    (calculateAnnuity simpleParams).monthlyPayment
      = (calculateAnnuity reversibleParams).monthlyPayment :=
  ⟨rfl, (claim_C10_monthly_payment simpleParams reversibleParams rfl).2⟩

/-!  Life-expectancy characterization.  -/

theorem leGo_succ (rates : ℕ → ℚ) (age : ℤ) (i fuel : ℕ) (p e : Option ℚ) :
    leGo rates age i (fuel + 1) p e
      = if (ratesLength : ℤ) ≤ age + i then e
        else
          if jlt (jmul p (rateFactor rates (age + i))) (1/100)
          then jadd e (jmul p (rateFactor rates (age + i)))
          else leGo rates age (i + 1) fuel (jmul p (rateFactor rates (age + i)))
            (jadd e (jmul p (rateFactor rates (age + i)))) := rfl

theorem specLifeExpectancySum_succ (rates : ℕ → ℚ) (a i m : ℕ) (p : ℚ) :
    specLifeExpectancySum rates a i (m + 1) p
      = if ratesLength ≤ a + i then 0
        else if p * (1 - rates (a + i)) < 1/100 then p * (1 - rates (a + i))
          else p * (1 - rates (a + i))
            + specLifeExpectancySum rates a (i + 1) m (p * (1 - rates (a + i))) := rfl

theorem leGo_eq_specSum (rates : ℕ → ℚ) (a : ℕ) :
    ∀ (fuel i : ℕ) (p e : ℚ),
      leGo rates (a : ℤ) i fuel (some p) (some e)
        = some (e + specLifeExpectancySum rates a i fuel p) := by
  intro fuel
  induction fuel with
  | zero => intro i p e; simp [leGo, specLifeExpectancySum]
  | succ n ih =>
    intro i p e
    rw [leGo_succ, specLifeExpectancySum_succ]
    have h0 : (0:ℤ) ≤ (a:ℤ) + (i:ℤ) := by positivity
    have hidx : ((a:ℤ) + (i:ℤ)).toNat = a + i := by omega
    rw [rateFactor, if_pos h0, hidx, jmul_some]
    by_cases h : ratesLength ≤ a + i
    · rw [if_pos (by exact_mod_cast h), if_pos h, add_zero]
    · rw [if_neg (by exact_mod_cast h), if_neg h]
      by_cases h3 : p * (1 - rates (a + i)) < 1/100
      · have hb : jlt (some (p * (1 - rates (a + i)))) (1/100) = true := decide_eq_true h3
        rw [if_pos hb, if_pos h3, jadd_some]
      · have hb : ¬ (jlt (some (p * (1 - rates (a + i)))) (1/100) = true) :=
          fun hc => h3 (of_decide_eq_true hc)
        rw [if_neg hb, if_neg h3, jadd_some,
          ih (i+1) (p * (1 - rates (a + i))) (e + p * (1 - rates (a + i))), add_assoc]

theorem lifeExpectancy_eq_specSum (age : ℕ) (gender table : String) :
    calculateLifeExpectancy (age : ℤ) gender table
      = some (((jsRound (specLifeExpectancySum (resolveRates table gender) age 0 50 1 * 10)
          : ℚ)) / 10) := by
  unfold calculateLifeExpectancy
  rw [leGo_eq_specSum (resolveRates table gender) age 50 0 1 0]
  simp [zero_add]

theorem specLifeExpectancySum_nonneg (rates : ℕ → ℚ)
    (hr : ∀ j, 0 ≤ rates j ∧ rates j ≤ 1) (a : ℕ) :
    ∀ (fuel i : ℕ) (p : ℚ), 0 ≤ p → 0 ≤ specLifeExpectancySum rates a i fuel p := by
  intro fuel
  induction fuel with
  | zero => intro i p hp; simp [specLifeExpectancySum]
  | succ n ih =>
    intro i p hp
    rw [specLifeExpectancySum_succ]
    obtain ⟨hr0, hr1⟩ := hr (a+i)
    have hp2 : 0 ≤ p * (1 - rates (a+i)) := mul_nonneg hp (by linarith)
    split_ifs with h h2
    · exact le_refl 0
    · exact hp2
    · have := ih (i+1) (p * (1 - rates (a+i))) hp2
      linarith

/-- C3, amended: the life-expectancy accumulation stops early when the
running probability drops below 0.01 OR when the current age runs past the
table's 100-entry range, whichever happens first; the accumulated sum is
returned rounded to one decimal place. -/
theorem claim_C3_life_expectancy_amended (age : ℕ) (gender table : String) :
    calculateLifeExpectancy (age : ℤ) gender table
      = some (((jsRound (specLifeExpectancySum (resolveRates table gender) age 0 50 1 * 10)
          : ℚ)) / 10) :=
  lifeExpectancy_eq_specSum age gender table

/-- C3, counterexample to the claim as stated: at age 99 the loop stops by
table exhaustion after one accumulated year with running probability 0.801
(≥ 0.01), returning 0.8, whereas the truncation-only reading of the claim
would accumulate 50 years of 0.801 and return 40.1. -/
theorem lifeExpectancy_99 : calculateLifeExpectancy 99 "male" "TGH05" = some (4/5) := by
  have ht : (99:ℤ).toNat = 99 := rfl
  have h0 : leGo (resolveRates "TGH05" "male") 99 0 50 (some 1) (some 0) = some (801/1000) := by
    norm_num [leGo, resolveRates, mortalityRates, TGH05male, ramp, ratesLength, rateFactor,
      jmul, jadd, jlt, min_def, ht]
  have hf : jsRound (801/1000 * 10) = 8 := jsRound_eq 8 (by norm_num) (by norm_num)
  unfold calculateLifeExpectancy
  rw [h0]
  simp only [Option.map_some']
  rw [hf]
  norm_num

theorem truncOnlyLifeExpectancy_99 : truncOnlyLifeExpectancy 99 "male" "TGH05" = 401/10 := by
  have hS : truncOnlyLifeExpectancySum (resolveRates "TGH05" "male") 99 0 50 1 = 801/20 := by
    norm_num [truncOnlyLifeExpectancySum, resolveRates, mortalityRates, TGH05male, ramp,
      ratesLength, min_def]
  have hf2 : jsRound (801/20 * 10) = 401 := jsRound_eq 401 (by norm_num) (by norm_num)
  unfold truncOnlyLifeExpectancy
  rw [hS, hf2]
  norm_num

theorem claim_C3_counterexample :
    calculateLifeExpectancy 99 "male" "TGH05" = some (4/5) ∧
    truncOnlyLifeExpectancy 99 "male" "TGH05" = 401/10 ∧
    calculateLifeExpectancy 99 "male" "TGH05"
      ≠ some (truncOnlyLifeExpectancy 99 "male" "TGH05") := by
  refine ⟨lifeExpectancy_99, truncOnlyLifeExpectancy_99, ?_⟩
  rw [lifeExpectancy_99, truncOnlyLifeExpectancy_99]
  norm_num

/-!  C4: projection length.  -/

theorem lifeExpectancy_some_nonneg (a : ℕ) (gender table : String) :
    ∃ q, calculateLifeExpectancy (a : ℤ) gender table = some q ∧ 0 ≤ q := by
  refine ⟨_, lifeExpectancy_eq_specSum a gender table, ?_⟩
  have hS : 0 ≤ specLifeExpectancySum (resolveRates table gender) a 0 50 1 :=
    specLifeExpectancySum_nonneg _ (resolveRates_bounds table gender) a 50 0 1 (by norm_num)
  have h1 : (0:ℤ) ≤ jsRound (specLifeExpectancySum (resolveRates table gender) a 0 50 1 * 10) :=
    jsRound_nonneg (by positivity)
  have h2 : (0:ℚ) ≤ (jsRound (specLifeExpectancySum (resolveRates table gender) a 0 50 1 * 10)
      : ℚ) := by exact_mod_cast h1
  exact div_nonneg h2 (by norm_num)

/-- C4: the projections sequence has length `min(30, ceil(lifeExpectancy))`
with `lifeExpectancy` the value returned in the same result, and the length
is independent of the annuity type. -/
theorem claim_C4_projection_length (p : CalculationParams) (h : 0 ≤ p.age) :
    ∃ q, (calculateAnnuity p).lifeExpectancy = some q ∧ 0 ≤ q ∧
      (calculateAnnuity p).projections.length = min 30 (jsCeil q).toNat ∧
      ∀ t : String, (calculateAnnuity { p with annuityType := t }).projections.length
        = (calculateAnnuity p).projections.length := by
  obtain ⟨a, ha⟩ : ∃ a : ℕ, p.age = (a : ℤ) := ⟨p.age.toNat, by omega⟩
  obtain ⟨q, hq, hq0⟩ := lifeExpectancy_some_nonneg a p.gender p.mortalityTable
  rw [← ha] at hq
  refine ⟨q, ?_, hq0, ?_, ?_⟩
  · rw [calculateAnnuity_lifeExpectancy, hq]
  · rw [calculateAnnuity_length, hq]
    simp only [numProjYears]
    have hc : 0 ≤ jsCeil q := jsCeil_nonneg hq0
    rcases le_total (30 : ℤ) (jsCeil q) with hle | hle
    · rw [min_eq_left hle, min_eq_left (by omega)]
      rfl
    · rw [min_eq_right hle, min_eq_right (by omega)]
  · intro t
    rw [calculateAnnuity_length, calculateAnnuity_length]

/-!  C1: reversible annuity decomposition.  -/

/-- C1: for a reversible-annuity record the present value before final
rounding is the primary simple annuity plus 0.6 times the spouse's simple
annuity (opposite sex, `annualAmount × reversalRate/100`), each component
being the simple strategy itself (50-year horizon, survival < 0.01 early
exit); the result's `presentValue` is its rounding. -/
theorem claim_C1_reversible_decomposition (p : CalculationParams)
    (hT : p.annuityType = "reversible")
    (_hSex : p.gender = "male" ∨ p.gender = "female") :
    presentValueByType p.annuityType p.age p.gender p.mortalityTable p.annualAmount
        (p.interestRate / 100) (p.duration.getD 30) (p.deferralPeriod.getD 0)
        (p.growthRate.getD 0) (p.reversalRate.getD 60) (p.spouseAge.getD (p.age - 3))
      = jadd
          (calculateSimpleAnnuity p.age p.gender p.mortalityTable p.annualAmount
            (p.interestRate / 100))
          (jmul (some (6/10))
            (calculateSimpleAnnuity (p.spouseAge.getD (p.age - 3)) (oppositeSex p.gender)
              p.mortalityTable (p.annualAmount * (p.reversalRate.getD 60 / 100))
              (p.interestRate / 100)))
      ∧ (calculateAnnuity p).presentValue
        = (presentValueByType p.annuityType p.age p.gender p.mortalityTable p.annualAmount
            (p.interestRate / 100) (p.duration.getD 30) (p.deferralPeriod.getD 0)
            (p.growthRate.getD 0) (p.reversalRate.getD 60)
            (p.spouseAge.getD (p.age - 3))).map jsRound := by
  constructor
  · rw [presentValueByType]
    rw [if_neg (by rw [hT]; simp), if_pos hT]
    rw [calculateReversibleAnnuity]
    have hg : (if p.gender = "male" then "female" else "male") = oppositeSex p.gender := rfl
    rw [hg, jmul_comm]
    norm_num
  · rfl

/-- Witness for C1 on a concrete reversible record. -/
theorem claim_C1_witness :
    reversibleParams.annuityType = "reversible" ∧
    (reversibleParams.gender = "male" ∨ reversibleParams.gender = "female") ∧
    (presentValueByType reversibleParams.annuityType reversibleParams.age
        reversibleParams.gender reversibleParams.mortalityTable reversibleParams.annualAmount
        (reversibleParams.interestRate / 100) (reversibleParams.duration.getD 30)
        (reversibleParams.deferralPeriod.getD 0) (reversibleParams.growthRate.getD 0)
        (reversibleParams.reversalRate.getD 60)
        (reversibleParams.spouseAge.getD (reversibleParams.age - 3))
      = jadd
          (calculateSimpleAnnuity reversibleParams.age reversibleParams.gender
            reversibleParams.mortalityTable reversibleParams.annualAmount
            (reversibleParams.interestRate / 100))
          (jmul (some (6/10))
            (calculateSimpleAnnuity
              (reversibleParams.spouseAge.getD (reversibleParams.age - 3))
              (oppositeSex reversibleParams.gender) reversibleParams.mortalityTable
              (reversibleParams.annualAmount * (reversibleParams.reversalRate.getD 60 / 100))
              (reversibleParams.interestRate / 100)))
      ∧ (calculateAnnuity reversibleParams).presentValue
        = (presentValueByType reversibleParams.annuityType reversibleParams.age
            reversibleParams.gender reversibleParams.mortalityTable
            reversibleParams.annualAmount (reversibleParams.interestRate / 100)
            (reversibleParams.duration.getD 30) (reversibleParams.deferralPeriod.getD 0)
            (reversibleParams.growthRate.getD 0) (reversibleParams.reversalRate.getD 60)
            (reversibleParams.spouseAge.getD (reversibleParams.age - 3))).map jsRound) :=
  ⟨rfl, Or.inl rfl, claim_C1_reversible_decomposition reversibleParams rfl (Or.inl rfl)⟩

/-!  Evaluating `jsCeil` on explicit rationals.  -/

theorem ratCeil_eq (q : ℚ) :
    q.ceil = if q.den = 1 then q.floor else q.floor + 1 := by
  unfold Rat.ceil Rat.floor
  split_ifs <;> rfl

theorem jsCeil_eq (n : ℤ) {q : ℚ} (h1 : (n:ℚ) - 1 < q) (h2 : q ≤ n) : jsCeil q = n := by
  unfold jsCeil
  rw [ratCeil_eq]
  have hfl : q.floor = ⌊q⌋ := rfl
  by_cases hden : q.den = 1
  · rw [if_pos hden, hfl]
    have hq : ((q.num : ℚ)) = q := by
      have h3 := Rat.num_div_den q
      rw [hden] at h3
      simpa using h3
    rw [← hq, Int.floor_intCast]
    rw [← hq] at h1 h2
    have e1 : n - 1 < q.num := by exact_mod_cast h1
    have e2 : q.num ≤ n := by exact_mod_cast h2
    omega
  · rw [if_neg hden, hfl]
    have hlt : q < (n : ℚ) := by
      rcases lt_or_eq_of_le h2 with h3 | h3
      · exact h3
      · exact absurd (h3 ▸ Rat.den_intCast n) hden
    have hfloor : ⌊q⌋ = n - 1 := by
      rw [Int.floor_eq_iff]
      constructor
      · push_cast
        linarith
      · push_cast
        linarith
    omega

/-!  C2: growing-annuity projected payments.  -/

theorem projGo_getElem (age : ℤ) (gender table ty : String) (amt g : ℚ) (dur defp : ℕ) :
    ∀ (fuel i year : ℕ) (tp : Option ℚ) (pt : ProjectionPoint),
      ((projGo age gender table ty amt g dur defp year fuel tp).1)[i]? = some pt →
      pt.year = year + i ∧ pt.payment = jsRound (paymentFor ty amt g dur defp (year + i)) := by
  intro fuel
  induction fuel with
  | zero =>
    intro i year tp pt h
    simp [projGo] at h
  | succ n ih =>
    intro i year tp pt h
    rw [projGo_succ] at h
    cases i with
    | zero =>
      rw [List.getElem?_cons_zero] at h
      injection h with h2
      subst h2
      exact ⟨by simp, by simp⟩
    | succ m =>
      rw [List.getElem?_cons_succ] at h
      have h2 := ih m (year + 1) _ pt h
      refine ⟨by rw [h2.1]; omega, ?_⟩
      have e : year + 1 + m = year + (m + 1) := by omega
      rw [← e]
      exact h2.2

/-- C2: for a growing-annuity record, the `i`-th projection point (year
`i+1`) has payment `round(annualAmount × (1+growthRate/100)^(year−1))`. -/
theorem claim_C2_growing_payment (p : CalculationParams) (hT : p.annuityType = "growing") :
    ∀ (i : ℕ) (pt : ProjectionPoint),
      ((calculateAnnuity p).projections)[i]? = some pt →
      pt.payment = jsRound (p.annualAmount * (1 + p.growthRate.getD 0 / 100) ^ i) ∧
      pt.year = i + 1 := by
  intro i pt h
  rw [calculateAnnuity_projections] at h
  have h2 := projGo_getElem p.age p.gender p.mortalityTable p.annuityType p.annualAmount
    (p.growthRate.getD 0) (p.duration.getD 30) (p.deferralPeriod.getD 0) _ i 1 _ pt h
  constructor
  · rw [h2.2]
    simp only [paymentFor, hT]
    simp
  · rw [h2.1]
    omega

theorem lifeExpectancy_90 : calculateLifeExpectancy 90 "male" "TGH05" = some (19/5) := by
  have h90 : (90:ℤ).toNat = 90 := rfl
  have h91 : (91:ℤ).toNat = 91 := rfl
  have h92 : (92:ℤ).toNat = 92 := rfl
  have h93 : (93:ℤ).toNat = 93 := rfl
  have h94 : (94:ℤ).toNat = 94 := rfl
  have h95 : (95:ℤ).toNat = 95 := rfl
  have h96 : (96:ℤ).toNat = 96 := rfl
  have h97 : (97:ℤ).toNat = 97 := rfl
  have h98 : (98:ℤ).toNat = 98 := rfl
  have h99 : (99:ℤ).toNat = 99 := rfl
  have hV : leGo (resolveRates "TGH05" "male") 90 0 50 (some 1) (some 0)
      = some (152970784441963567699298791203/40000000000000000000000000000) := by
    norm_num [leGo, resolveRates, mortalityRates, TGH05male, ramp, ratesLength, rateFactor,
      jmul, jadd, jlt, min_def, h90, h91, h92, h93, h94, h95, h96, h97, h98, h99]
  have hf : jsRound (152970784441963567699298791203/40000000000000000000000000000 * 10) = 38 :=
    jsRound_eq 38 (by norm_num) (by norm_num)
  unfold calculateLifeExpectancy
  rw [hV]
  simp only [Option.map_some']
  rw [hf]
  norm_num

theorem numProjYears_19_5 : numProjYears (some (19/5)) = 4 := by
  simp only [numProjYears]
  rw [jsCeil_eq 4 (by norm_num) (by norm_num)]
  rfl

theorem survival_90_1 : calculateSurvivalProbability 90 "male" "TGH05" 1 = some (819/1000) := by
  have h90 : (90:ℤ).toNat = 90 := rfl
  norm_num [calculateSurvivalProbability, survGo, resolveRates, mortalityRates, TGH05male, ramp,
    ratesLength, rateFactor, jmul, min_def, h90]

theorem growing_projections_head :
    ((calculateAnnuity growingParams).projections)[0]? = some growingPt0 := by
  rw [calculateAnnuity_projections]
  have hle : calculateLifeExpectancy growingParams.age growingParams.gender
      growingParams.mortalityTable = some (19/5) := lifeExpectancy_90
  rw [hle, numProjYears_19_5, projGo_succ, List.getElem?_cons_zero]
  have hsp : calculateSurvivalProbability growingParams.age growingParams.gender
      growingParams.mortalityTable 1 = some (819/1000) := survival_90_1
  have hpay : paymentFor growingParams.annuityType growingParams.annualAmount
      (growingParams.growthRate.getD 0) (growingParams.duration.getD 30)
      (growingParams.deferralPeriod.getD 0) 1 = 1200 := by
    show paymentFor "growing" 1200 10 30 0 1 = 1200
    norm_num [paymentFor]
  rw [hsp, hpay]
  have hr1 : jsRound 1200 = 1200 := jsRound_eq 1200 (by norm_num) (by norm_num)
  have hr2 : jsRound (0 + 1200 * (819/1000)) = 983 := jsRound_eq 983 (by norm_num) (by norm_num)
  have hr3 : jsRound (819/1000 * 100) = 82 := jsRound_eq 82 (by norm_num) (by norm_num)
  simp only [jadd, jmul, Option.map_some']
  rw [hr1, hr2, hr3]
  norm_num [growingPt0]

/-- Witness for C2 at the first projection point of a concrete growing
annuity. -/
theorem claim_C2_witness :
    growingParams.annuityType = "growing" ∧
    ((calculateAnnuity growingParams).projections)[0]? = some growingPt0 ∧
    (growingPt0.payment
        = jsRound (growingParams.annualAmount
            * (1 + growingParams.growthRate.getD 0 / 100) ^ 0)
      ∧ growingPt0.year = 0 + 1) :=
  ⟨rfl, growing_projections_head,
    claim_C2_growing_payment growingParams rfl 0 growingPt0 growing_projections_head⟩

/-!  C9: cumulative payments.  -/

theorem calculateAnnuity_totalPayments (p : CalculationParams) :
    (calculateAnnuity p).totalPayments
      = ((projGo p.age p.gender p.mortalityTable p.annuityType p.annualAmount
          (p.growthRate.getD 0) (p.duration.getD 30) (p.deferralPeriod.getD 0) 1
          (numProjYears (calculateLifeExpectancy p.age p.gender p.mortalityTable))
          (some 0)).2).map jsRound := rfl

theorem projGo_getLast (age : ℤ) (gender table ty : String) (amt g : ℚ) (dur defp : ℕ) :
    ∀ (fuel year : ℕ) (tp : Option ℚ) (pt : ProjectionPoint),
      ((projGo age gender table ty amt g dur defp year fuel tp).1).getLast? = some pt →
      pt.cumulativePayment
        = ((projGo age gender table ty amt g dur defp year fuel tp).2).map jsRound := by
  intro fuel
  induction fuel with
  | zero => intro year tp pt h; simp [projGo] at h
  | succ n ih =>
    intro year tp pt h
    cases n with
    | zero =>
      rw [projGo_succ] at h ⊢
      simp only [projGo] at h ⊢
      simp only [List.getLast?_singleton, Option.some.injEq] at h
      subst h
      rfl
    | succ m =>
      rw [projGo_succ] at h ⊢
      have hne : ((projGo age gender table ty amt g dur defp (year + 1) (m + 1)
          (jadd tp (jmul (some (paymentFor ty amt g dur defp year))
            (calculateSurvivalProbability age gender table year)))).1) ≠ [] := by
        intro hc
        have hl := projGo_length age gender table ty amt g dur defp (m + 1) (year + 1)
          (jadd tp (jmul (some (paymentFor ty amt g dur defp year))
            (calculateSurvivalProbability age gender table year)))
        rw [hc] at hl
        simp at hl
      obtain ⟨x, xs, hx⟩ := List.exists_cons_of_ne_nil hne
      rw [hx] at h
      rw [List.getLast?_cons_cons] at h
      rw [← hx] at h
      exact ih (year + 1) _ pt h

theorem paymentFor_nonneg (ty : String) (amt g : ℚ) (dur defp year : ℕ)
    (hAmt : 0 ≤ amt) (hG : -100 ≤ g) :
    0 ≤ paymentFor ty amt g dur defp year := by
  have hbase : (0:ℚ) ≤ 1 + g / 100 := by linarith
  simp only [paymentFor]
  split_ifs <;> first
    | exact le_refl 0
    | exact hAmt
    | exact mul_nonneg hAmt (pow_nonneg hbase _)

theorem projGo_cum_mono (age : ℤ) (gender table ty : String) (amt g : ℚ) (dur defp : ℕ)
    (hs : ∀ year, ∃ s,
      calculateSurvivalProbability age gender table year = some s ∧ 0 ≤ s)
    (hp : ∀ year, 0 ≤ paymentFor ty amt g dur defp year) :
    ∀ (fuel year : ℕ) (t : ℚ) (i : ℕ) (ptA ptB : ProjectionPoint),
      ((projGo age gender table ty amt g dur defp year fuel (some t)).1)[i]? = some ptA →
      ((projGo age gender table ty amt g dur defp year fuel (some t)).1)[i+1]? = some ptB →
      ∃ u v, ptA.cumulativePayment = some u ∧ ptB.cumulativePayment = some v ∧ u ≤ v := by
  intro fuel
  induction fuel with
  | zero => intro year t i ptA ptB hA hB; simp [projGo] at hA
  | succ n ih =>
    intro year t i ptA ptB hA hB
    obtain ⟨s, hs1, hs0⟩ := hs year
    rw [projGo_succ, hs1] at hA hB
    simp only [jadd, jmul] at hA hB
    cases i with
    | zero =>
      rw [List.getElem?_cons_zero] at hA
      injection hA with hA2
      subst hA2
      rw [List.getElem?_cons_succ] at hB
      cases n with
      | zero => simp [projGo] at hB
      | succ m =>
        obtain ⟨s2, hs2, hs20⟩ := hs (year + 1)
        rw [projGo_succ, hs2] at hB
        simp only [jadd, jmul] at hB
        rw [List.getElem?_cons_zero] at hB
        injection hB with hB2
        subst hB2
        refine ⟨jsRound (t + paymentFor ty amt g dur defp year * s),
          jsRound (t + paymentFor ty amt g dur defp year * s
            + paymentFor ty amt g dur defp (year + 1) * s2), rfl, rfl, ?_⟩
        have hps : 0 ≤ paymentFor ty amt g dur defp (year + 1) * s2 :=
          mul_nonneg (hp (year + 1)) hs20
        exact jsRound_mono (by linarith)
    | succ m =>
      rw [List.getElem?_cons_succ] at hA hB
      exact ih (year + 1) (t + paymentFor ty amt g dur defp year * s) m ptA ptB hA hB

/-- C9: in every result with nonnegative age/amount and growth ≥ −100 %,
the last projection point's cumulative payment equals the result's
`totalPayments` (both round the same unrounded running sum), and cumulative
payments are non-decreasing along the sequence. -/
theorem claim_C9_cumulative_payments (p : CalculationParams) (hAge : 0 ≤ p.age)
    (hAmt : 0 ≤ p.annualAmount) (hG : -100 ≤ p.growthRate.getD 0) :
    (∀ pt, ((calculateAnnuity p).projections).getLast? = some pt →
        pt.cumulativePayment = (calculateAnnuity p).totalPayments) ∧
    (∀ (i : ℕ) (ptA ptB : ProjectionPoint),
        ((calculateAnnuity p).projections)[i]? = some ptA →
        ((calculateAnnuity p).projections)[i+1]? = some ptB →
        ∃ u v, ptA.cumulativePayment = some u ∧ ptB.cumulativePayment = some v ∧ u ≤ v) := by
  constructor
  · intro pt h
    rw [calculateAnnuity_projections] at h
    have h2 := projGo_getLast p.age p.gender p.mortalityTable p.annuityType p.annualAmount
      (p.growthRate.getD 0) (p.duration.getD 30) (p.deferralPeriod.getD 0) _ 1 _ pt h
    rw [h2, calculateAnnuity_totalPayments]
  · obtain ⟨a, ha⟩ : ∃ a : ℕ, p.age = (a:ℤ) := ⟨p.age.toNat, by omega⟩
    have hs : ∀ year, ∃ s,
        calculateSurvivalProbability p.age p.gender p.mortalityTable year = some s ∧ 0 ≤ s := by
      intro year
      rw [ha]
      refine ⟨survProd (resolveRates p.mortalityTable p.gender) a 0 year, ?_, ?_⟩
      · unfold calculateSurvivalProbability
        rw [survGo_eq_survProd, one_mul]
      · exact (survProd_bounds _ (resolveRates_bounds p.mortalityTable p.gender) a year 0).1
    have hp : ∀ year, 0 ≤ paymentFor p.annuityType p.annualAmount (p.growthRate.getD 0)
        (p.duration.getD 30) (p.deferralPeriod.getD 0) year :=
      fun year => paymentFor_nonneg _ _ _ _ _ _ hAmt hG
    intro i ptA ptB hA hB
    rw [calculateAnnuity_projections] at hA hB
    exact projGo_cum_mono p.age p.gender p.mortalityTable p.annuityType p.annualAmount
      (p.growthRate.getD 0) (p.duration.getD 30) (p.deferralPeriod.getD 0) hs hp _ 1 0
      i ptA ptB hA hB

theorem survival_99_1 : calculateSurvivalProbability 99 "male" "TGH05" 1 = some (801/1000) := by
  have ht : (99:ℤ).toNat = 99 := rfl
  norm_num [calculateSurvivalProbability, survGo, resolveRates, mortalityRates, TGH05male, ramp,
    ratesLength, rateFactor, jmul, min_def, ht]

theorem numProjYears_4_5 : numProjYears (some (4/5)) = 1 := by
  simp only [numProjYears]
  rw [jsCeil_eq 1 (by norm_num) (by norm_num)]
  rfl

theorem simple99_projections_last :
    ((calculateAnnuity simple99Params).projections).getLast? = some lastPt99 := by
  rw [calculateAnnuity_projections]
  have hle : calculateLifeExpectancy simple99Params.age simple99Params.gender
      simple99Params.mortalityTable = some (4/5) := lifeExpectancy_99
  rw [hle, numProjYears_4_5, projGo_succ]
  have hsp : calculateSurvivalProbability simple99Params.age simple99Params.gender
      simple99Params.mortalityTable 1 = some (801/1000) := survival_99_1
  have hpf : paymentFor simple99Params.annuityType simple99Params.annualAmount
      (simple99Params.growthRate.getD 0) (simple99Params.duration.getD 30)
      (simple99Params.deferralPeriod.getD 0) 1 = 12000 := by
    show paymentFor "simple" 12000 0 30 0 1 = 12000
    norm_num [paymentFor]
  rw [hsp, hpf]
  have hr1 : jsRound (12000:ℚ) = 12000 := jsRound_eq 12000 (by norm_num) (by norm_num)
  have hr2 : jsRound (0 + 12000 * (801/1000)) = 9612 := jsRound_eq 9612 (by norm_num) (by norm_num)
  have hr3 : jsRound (801/1000 * 100) = 80 := jsRound_eq 80 (by norm_num) (by norm_num)
  simp only [jadd, jmul, Option.map_some', List.getLast?_singleton]
  rw [hr1, hr2, hr3]
  norm_num [lastPt99]
  simp [projGo, List.getLast?_singleton]

/-- Witness for C9 on a concrete simple annuity with one projection point. -/
theorem claim_C9_witness :
    (0 ≤ simple99Params.age) ∧ (0 ≤ simple99Params.annualAmount) ∧
    (-100 ≤ simple99Params.growthRate.getD 0) ∧
    lastPt99.cumulativePayment = (calculateAnnuity simple99Params).totalPayments :=
  ⟨by norm_num [simple99Params], by norm_num [simple99Params],
    by norm_num [simple99Params, Option.getD_none],
    (claim_C9_cumulative_payments simple99Params (by norm_num [simple99Params])
      (by norm_num [simple99Params]) (by norm_num [simple99Params, Option.getD_none])).1
      lastPt99 simple99_projections_last⟩

/-- Witness for C4 on a concrete simple annuity. -/
theorem claim_C4_witness :
    (0 ≤ simpleParams.age) ∧
    ∃ q, (calculateAnnuity simpleParams).lifeExpectancy = some q ∧ 0 ≤ q ∧
      (calculateAnnuity simpleParams).projections.length = min 30 (jsCeil q).toNat ∧
      ∀ t : String,
        (calculateAnnuity { simpleParams with annuityType := t }).projections.length
          = (calculateAnnuity simpleParams).projections.length :=
  ⟨by norm_num [simpleParams],
    claim_C4_projection_length simpleParams (by norm_num [simpleParams])⟩

end ActuaryRent
